import Mathlib

/-!
Shallow embedding of the ShiftRegister driver (src/ShiftRegister.c) and its
game-controller consumer (src/GameController.c).

The C code drives GPIO pins through the Pico SDK primitives gpio_init,
gpio_set_dir, gpio_put, gpio_get and sleep_us.  These primitives are modelled
as abstract events accumulated in a trace (type GPIOEvent); the levels sampled
by gpio_get are supplied by an input stream ins : Nat → Bool, where ins k is
the level returned by the k-th gpio_get call of the operation.  Each C function
becomes a Lean function from the register state (and, for reading operations,
the input stream) to the new register state paired with the emitted event
trace.

Field names follow the C struct ShiftRegister; the C fields Type, ClockGPIO,
DataInGPIO, DataOutGPIO and LatchGPIO are rendered Typ, ClockPin, DataInPin,
DataOutPin and LatchPin.  Machine integers are Nats: the uint32_t buffers are
reduced mod 2 ^ 32 exactly where the C code's arithmetic can wrap, and the
uint8_t cast in GC8BitPoll is a mod 256.
-/

/-- define SHIFTREGISTER_CLOCKDELAY_US 5 -/
def SHIFTREGISTER_CLOCKDELAY_US : Nat := 5

/-- define SHIFTREGISTER_LATCHDELAY_US 5 -/
def SHIFTREGISTER_LATCHDELAY_US : Nat := 5

/-- define SHIFTREGISTER_INPUT 0 -/
def SHIFTREGISTER_INPUT : Nat := 0

/-- define SHIFTREGISTER_OUTPUT 1 -/
def SHIFTREGISTER_OUTPUT : Nat := 1

/-- define SHIFTREGISTER_HYBRID 2 -/
def SHIFTREGISTER_HYBRID : Nat := 2

/-- define MAX_SIZEINOCTETS 4 -/
def MAX_SIZEINOCTETS : Nat := 4

/-- The struct ShiftRegister of src/ShiftRegister.c. -/
structure ShiftRegister where
  Typ : Nat
  ClockPin : Nat
  DataInPin : Nat
  DataOutPin : Nat
  LatchPin : Nat
  SizeInOctets : Nat
  ClockDelayUS : Nat
  LatchDelayUS : Nat
  InputBuffer : Nat
  OutputBuffer : Nat
  InvertOutput : Bool
deriving DecidableEq

/-- One observable GPIO interaction: the Pico SDK calls made by the driver. -/
inductive GPIOEvent where
  | pinInit (pin : Nat)
  | setDir (pin : Nat) (isOut : Bool)
  | put (pin : Nat) (level : Bool)
  | get (pin : Nat) (level : Bool)
  | sleepUS (us : Nat)
deriving DecidableEq

/-- ShiftRegisterPulseLatch: latch high, sleep LatchDelayUS, latch low. -/
def ShiftRegisterPulseLatch (r : ShiftRegister) : List GPIOEvent :=
  [GPIOEvent.put r.LatchPin true,
   GPIOEvent.sleepUS r.LatchDelayUS,
   GPIOEvent.put r.LatchPin false]

/-- ShiftRegisterPulseClock: clock high, sleep, clock low, sleep. -/
def ShiftRegisterPulseClock (r : ShiftRegister) : List GPIOEvent :=
  [GPIOEvent.put r.ClockPin true,
   GPIOEvent.sleepUS r.ClockDelayUS,
   GPIOEvent.put r.ClockPin false,
   GPIOEvent.sleepUS r.ClockDelayUS]

/-- The level passed to gpio_put on the data-out pin for a given WriteMask:
the two branches of the InvertOutput test in ShiftRegisterWrite and
ShiftRegisterReadWrite. -/
def drivenLevel (r : ShiftRegister) (mask : Nat) : Bool :=
  if r.InvertOutput = false then decide (0 < (mask &&& r.OutputBuffer))
  else if 0 < (mask &&& r.OutputBuffer) then false else true

/-- The counted loop of ShiftRegisterWrite (and of the write phase of
ShiftRegisterReadWrite): put the masked bit on the data-out pin, pulse the
clock, shift WriteMask right by one; n is the remaining iteration count. -/
def ShiftRegisterWriteLoop (r : ShiftRegister) : Nat → Nat → List GPIOEvent
  | _, 0 => []
  | mask, Nat.succ n =>
      GPIOEvent.put r.DataOutPin (drivenLevel r mask) ::
        (ShiftRegisterPulseClock r ++ ShiftRegisterWriteLoop r (mask >>> 1) n)

/-- ShiftRegisterWrite: shift out OutputBuffer MSB-first, then pulse the
latch.  WriteMask starts as the uint32_t value 1 << (SizeInOctets*8 - 1).
No field of the register is assigned. -/
def ShiftRegisterWrite (r : ShiftRegister) : ShiftRegister × List GPIOEvent :=
  (r, ShiftRegisterWriteLoop r ((1 <<< (r.SizeInOctets * 8 - 1)) % 2 ^ 32)
        (r.SizeInOctets * 8)
      ++ ShiftRegisterPulseLatch r)

/-- The counted loop of ShiftRegisterRead (and of the read phase of
ShiftRegisterReadWrite): shift InputBuffer left (uint32_t, wrapping),
add the sampled data-in level, pulse the clock.  buf is the current
InputBuffer, i the index of the next gpio_get sample, n the remaining
iteration count; returns the final InputBuffer and the emitted trace. -/
def ShiftRegisterReadLoop (r : ShiftRegister) (ins : Nat → Bool) :
    Nat → Nat → Nat → Nat × List GPIOEvent
  | buf, _, 0 => (buf, [])
  | buf, i, Nat.succ n =>
      let b := ins i
      let buf2 := (buf <<< 1) % 2 ^ 32 + (if b then 1 else 0)
      let rest := ShiftRegisterReadLoop r ins buf2 (i + 1) n
      (rest.1, GPIOEvent.get r.DataInPin b :: (ShiftRegisterPulseClock r ++ rest.2))

/-- ShiftRegisterRead: InputBuffer := 0, latch high, sample SizeInOctets*8
bits MSB-first, latch low. -/
def ShiftRegisterRead (r : ShiftRegister) (ins : Nat → Bool) :
    ShiftRegister × List GPIOEvent :=
  let res := ShiftRegisterReadLoop r ins 0 0 (r.SizeInOctets * 8)
  ({ r with InputBuffer := res.1 },
   GPIOEvent.put r.LatchPin true ::
     (res.2 ++ [GPIOEvent.put r.LatchPin false]))

/-- ShiftRegisterReadWrite: the hybrid cycle.  First the write loop (no latch
pulse), then latch high, InputBuffer := 0, the read loop, latch low. -/
def ShiftRegisterReadWrite (r : ShiftRegister) (ins : Nat → Bool) :
    ShiftRegister × List GPIOEvent :=
  let wtr := ShiftRegisterWriteLoop r ((1 <<< (r.SizeInOctets * 8 - 1)) % 2 ^ 32)
      (r.SizeInOctets * 8)
  let res := ShiftRegisterReadLoop r ins 0 0 (r.SizeInOctets * 8)
  ({ r with InputBuffer := res.1 },
   wtr ++ (GPIOEvent.put r.LatchPin true ::
     (res.2 ++ [GPIOEvent.put r.LatchPin false])))

/-- The counted loop of ShiftRegisterFill: put FillValue==0 ? 0 : 1 on the
data-out pin and pulse the clock, SizeInOctets*8 times.  InvertOutput is not
consulted. -/
def ShiftRegisterFillLoop (r : ShiftRegister) (FillValue : Nat) :
    Nat → List GPIOEvent
  | 0 => []
  | Nat.succ n =>
      GPIOEvent.put r.DataOutPin (if FillValue = 0 then false else true) ::
        (ShiftRegisterPulseClock r ++ ShiftRegisterFillLoop r FillValue n)

/-- ShiftRegisterFill: drive a constant level across all positions, then
pulse the latch.  No field of the register is assigned. -/
def ShiftRegisterFill (r : ShiftRegister) (FillValue : Nat) :
    ShiftRegister × List GPIOEvent :=
  (r, ShiftRegisterFillLoop r FillValue (r.SizeInOctets * 8)
      ++ ShiftRegisterPulseLatch r)

/-- ShiftRegisterUpdate: dispatch on the Type field; unknown types fall
through the switch and do nothing. -/
def ShiftRegisterUpdate (r : ShiftRegister) (ins : Nat → Bool) :
    ShiftRegister × List GPIOEvent :=
  if r.Typ = SHIFTREGISTER_INPUT then ShiftRegisterRead r ins
  else if r.Typ = SHIFTREGISTER_OUTPUT then ShiftRegisterWrite r
  else if r.Typ = SHIFTREGISTER_HYBRID then ShiftRegisterReadWrite r ins
  else (r, [])

/-- The pin-configuration calls issued by ShiftRegisterCreate before the
struct is populated: clock pin initialised as output; data-in pin (when
non-zero) as input; data-out pin (when non-zero) as output and driven low;
latch pin as output and driven low.  The clock pin receives no gpio_put. -/
def ShiftRegisterCreateConfigTrace (ClockPinA DataInPinA DataOutPinA LatchPinA : Nat) :
    List GPIOEvent :=
  [GPIOEvent.pinInit ClockPinA, GPIOEvent.setDir ClockPinA true]
  ++ (if DataInPinA ≠ 0 then
        [GPIOEvent.pinInit DataInPinA, GPIOEvent.setDir DataInPinA false]
      else [])
  ++ (if DataOutPinA ≠ 0 then
        [GPIOEvent.pinInit DataOutPinA, GPIOEvent.setDir DataOutPinA true,
         GPIOEvent.put DataOutPinA false]
      else [])
  ++ [GPIOEvent.pinInit LatchPinA, GPIOEvent.setDir LatchPinA true,
      GPIOEvent.put LatchPinA false]

/-- ShiftRegisterCreate: NULL when SizeInOctets exceeds MAX_SIZEINOCTETS,
otherwise configure the pins, populate the struct (InputBuffer 0, OutputBuffer
the initial value, default delays, InvertOutput false) and run one
ShiftRegisterUpdate before returning. -/
def ShiftRegisterCreate (TypA ClockPinA DataInPinA DataOutPinA LatchPinA : Nat)
    (InitialValue : Nat) (SizeInOctetsA : Nat) (ins : Nat → Bool) :
    Option (ShiftRegister × List GPIOEvent) :=
  if SizeInOctetsA > MAX_SIZEINOCTETS then none
  else
    let r0 : ShiftRegister :=
      { Typ := TypA, ClockPin := ClockPinA, DataInPin := DataInPinA,
        DataOutPin := DataOutPinA, LatchPin := LatchPinA,
        SizeInOctets := SizeInOctetsA,
        ClockDelayUS := SHIFTREGISTER_CLOCKDELAY_US,
        LatchDelayUS := SHIFTREGISTER_LATCHDELAY_US,
        InputBuffer := 0, OutputBuffer := InitialValue,
        InvertOutput := false }
    let upd := ShiftRegisterUpdate r0 ins
    some (upd.1, ShiftRegisterCreateConfigTrace ClockPinA DataInPinA DataOutPinA LatchPinA
          ++ upd.2)

/-- define GC8BIT_DELAY 1 (src/GameController.c). -/
def GC8BIT_DELAY : Nat := 1

/-- GC8BitPoll: one ShiftRegisterUpdate, then return (uint8_t)InputBuffer.
The result is the returned byte, the updated register and the trace. -/
def GC8BitPoll (Controller : ShiftRegister) (ins : Nat → Bool) :
    Nat × ShiftRegister × List GPIOEvent :=
  let upd := ShiftRegisterUpdate Controller ins
  (upd.1.InputBuffer % 256, upd.1, upd.2)

/-- GC8BitInit: ShiftRegisterCreate(SHIFTREGISTER_INPUT, clock, data-in, 0,
latch, 0, 1), then both delays set to GC8BIT_DELAY.  The C code performs no
NULL check; with size 1 the creation never fails. -/
def GC8BitInit (ClockPinA DataInPinA LatchPinA : Nat) (ins : Nat → Bool) :
    Option (ShiftRegister × List GPIOEvent) :=
  match ShiftRegisterCreate SHIFTREGISTER_INPUT ClockPinA DataInPinA 0 LatchPinA 0 1 ins with
  | none => none
  | some (c, tr) =>
      some ({ c with ClockDelayUS := GC8BIT_DELAY, LatchDelayUS := GC8BIT_DELAY }, tr)

/-- The successive levels a trace drives onto one pin: the put events on that
pin, in order. -/
def pinPuts (pin : Nat) (tr : List GPIOEvent) : List Bool :=
  tr.filterMap (fun e =>
    match e with
    | GPIOEvent.put p l => if p = pin then some l else none
    | _ => none)

/-! ### Helper lemmas -/

lemma mapRange_congr {α : Type} (f g : Nat → α) (n : Nat)
    (h : ∀ k, k < n → f k = g k) : (List.range n).map f = (List.range n).map g := by
  induction n with
  | zero => rfl
  | succ m ih =>
      have hr : List.range (m + 1) = List.range m ++ [m] := List.range_succ m
      rw [hr, List.map_append, List.map_append, ih (fun k hk => h k (by omega))]
      simp [h m (by omega)]

lemma getD_mapRange {α : Type} (f : Nat → α) (n k : Nat) (d : α) (h : k < n) :
    ((List.range n).map f).getD k d = f k := by
  simp [List.getD, List.getElem?_map, List.getElem?_range h]

lemma initialMask_eq (W : Nat) (h4 : W ≤ 4) :
    (1 <<< (W * 8 - 1)) % 2 ^ 32 = 2 ^ (W * 8 - 1) := by
  rw [Nat.shiftLeft_eq, one_mul, Nat.mod_eq_of_lt]
  exact Nat.pow_lt_pow_right (by omega) (by omega)

lemma two_pow_shiftRight (m k : Nat) (h : k ≤ m) : (2 ^ m) >>> k = 2 ^ (m - k) := by
  rw [Nat.shiftRight_eq_div_pow]
  exact Nat.pow_div h (by omega)

lemma drivenLevel_two_pow (r : ShiftRegister) (i : Nat) :
    drivenLevel r (2 ^ i) = Bool.xor (r.OutputBuffer.testBit i) r.InvertOutput := by
  unfold drivenLevel
  rw [Nat.two_pow_and]
  cases hI : r.InvertOutput <;> cases hb : r.OutputBuffer.testBit i <;>
    simp [hb, Nat.pos_pow_of_pos]

lemma writeLoop_join (r : ShiftRegister) :
    ∀ (n mask : Nat), ShiftRegisterWriteLoop r mask n =
      ((List.range n).map (fun k =>
        GPIOEvent.put r.DataOutPin (drivenLevel r (mask >>> k)) ::
          ShiftRegisterPulseClock r)).flatten := by
  intro n
  induction n with
  | zero => intro mask; rfl
  | succ m ih =>
      intro mask
      rw [List.range_succ_eq_map, List.map_cons, List.flatten_cons, List.map_map]
      rw [ShiftRegisterWriteLoop, ih (mask >>> 1)]
      have hm : ∀ k, k < m →
          (fun k => GPIOEvent.put r.DataOutPin (drivenLevel r ((mask >>> 1) >>> k)) ::
            ShiftRegisterPulseClock r) k =
          ((fun k => GPIOEvent.put r.DataOutPin (drivenLevel r (mask >>> k)) ::
            ShiftRegisterPulseClock r) ∘ Nat.succ) k := by
        intro k _
        have : (mask >>> 1) >>> k = mask >>> (k + 1) := by
          rw [← Nat.shiftRight_add]
          have : 1 + k = k + 1 := by omega
          rw [this]
        simp [this]
      rw [mapRange_congr _ _ m hm]
      simp [Nat.shiftRight_zero]

lemma fillLoop_replicate (r : ShiftRegister) (FillValue : Nat) :
    ∀ n, ShiftRegisterFillLoop r FillValue n =
      (List.replicate n
        (GPIOEvent.put r.DataOutPin (decide (FillValue ≠ 0)) ::
          ShiftRegisterPulseClock r)).flatten := by
  intro n
  induction n with
  | zero => rfl
  | succ m ih =>
      rw [List.replicate_succ, List.flatten_cons, ShiftRegisterFillLoop, ih]
      by_cases h : FillValue = 0 <;> simp [h]

lemma readLoop_trace (r : ShiftRegister) (ins : Nat → Bool) :
    ∀ (n i buf : Nat), (ShiftRegisterReadLoop r ins buf i n).2 =
      ((List.range n).map (fun k =>
        GPIOEvent.get r.DataInPin (ins (i + k)) :: ShiftRegisterPulseClock r)).flatten := by
  intro n
  induction n with
  | zero => intro i buf; rfl
  | succ m ih =>
      intro i buf
      rw [List.range_succ_eq_map, List.map_cons, List.flatten_cons, List.map_map]
      show GPIOEvent.get r.DataInPin (ins i) ::
          (ShiftRegisterPulseClock r ++
            (ShiftRegisterReadLoop r ins ((buf <<< 1) % 2 ^ 32 +
              (if ins i then 1 else 0)) (i + 1) m).2) = _
      rw [ih (i + 1)]
      have hm : ∀ k, k < m →
          (fun k => GPIOEvent.get r.DataInPin (ins (i + 1 + k)) ::
            ShiftRegisterPulseClock r) k =
          ((fun k => GPIOEvent.get r.DataInPin (ins (i + k)) ::
            ShiftRegisterPulseClock r) ∘ Nat.succ) k := by
        intro k _
        have : i + 1 + k = i + (k + 1) := by omega
        simp [this]
      rw [mapRange_congr _ _ m hm]
      simp

lemma if_one_zero_eq_toNat (b : Bool) : (if b then (1 : Nat) else 0) = b.toNat := by
  cases b <;> rfl

lemma readLoop_val (r : ShiftRegister) (ins : Nat → Bool) :
    ∀ (n i buf : Nat), n ≤ 32 → buf < 2 ^ (32 - n) →
      (ShiftRegisterReadLoop r ins buf i n).1 =
        buf * 2 ^ n + ∑ k in Finset.range n, (ins (i + k)).toNat * 2 ^ (n - 1 - k) := by
  intro n
  induction n with
  | zero => intro i buf _ _; simp [ShiftRegisterReadLoop]
  | succ m ih =>
      intro i buf hn hbuf
      have hm32 : m ≤ 32 := by omega
      have hs : 32 - m = (32 - (m + 1)) + 1 := by omega
      have hpow : 2 ^ (32 - m) = 2 ^ (32 - (m + 1)) * 2 := by
        rw [hs, pow_succ]
      have hb2 : buf * 2 < 2 ^ (32 - m) := by
        rw [hpow]; omega
      have hble : 2 ^ (32 - m) ≤ 2 ^ 32 := Nat.pow_le_pow_right (by omega) (by omega)
      have hshift : (buf <<< 1) % 2 ^ 32 = buf * 2 := by
        rw [Nat.shiftLeft_eq, pow_one]
        exact Nat.mod_eq_of_lt (by omega)
      have hbuf2 : buf * 2 + (ins i).toNat < 2 ^ (32 - m) := by
        have : (ins i).toNat ≤ 1 := Bool.toNat_le (ins i)
        have hev : 2 ∣ buf * 2 := Dvd.intro buf (by ring)
        have h2 : 2 ∣ 2 ^ (32 - m) :=
          ⟨2 ^ (32 - (m + 1)), by rw [hpow]; ring⟩
        omega
      show (ShiftRegisterReadLoop r ins ((buf <<< 1) % 2 ^ 32 + (if ins i then 1 else 0))
          (i + 1) m).1 = _
      rw [hshift, if_one_zero_eq_toNat, ih (i + 1) (buf * 2 + (ins i).toNat) hm32 hbuf2]
      rw [Finset.sum_range_succ']
      have hsum : ∀ k ∈ Finset.range m,
          (ins (i + 1 + k)).toNat * 2 ^ (m - 1 - k) =
            (ins (i + (k + 1))).toNat * 2 ^ (m + 1 - 1 - (k + 1)) := by
        intro k _
        have h1 : i + 1 + k = i + (k + 1) := by omega
        have h2 : m - 1 - k = m + 1 - 1 - (k + 1) := by omega
        rw [h1, h2]
      rw [Finset.sum_congr rfl hsum]
      have h0 : (ins (i + 0)).toNat * 2 ^ (m + 1 - 1 - 0) = (ins i).toNat * 2 ^ m := by
        norm_num
      rw [h0]
      ring

lemma sum_testBit_eq : ∀ (w V : Nat), V < 2 ^ w →
    ∑ j in Finset.range w, (Nat.testBit V j).toNat * 2 ^ j = V := by
  intro w
  induction w with
  | zero =>
      intro V hV
      simp at hV
      simp [hV]
  | succ m ih =>
      intro V hV
      rw [Finset.sum_range_succ']
      have hdiv : V / 2 < 2 ^ m := by
        rw [Nat.div_lt_iff_lt_mul (by omega)]
        rw [pow_succ] at hV
        exact hV
      have hsum : ∀ j ∈ Finset.range m,
          (Nat.testBit V (j + 1)).toNat * 2 ^ (j + 1) =
            ((Nat.testBit (V / 2) j).toNat * 2 ^ j) * 2 := by
        intro j _
        rw [Nat.testBit_succ, pow_succ]
        ring
      rw [Finset.sum_congr rfl hsum, ← Finset.sum_mul, ih (V / 2) hdiv]
      have h0 : (Nat.testBit V 0).toNat * 2 ^ 0 = V % 2 := by
        rw [Nat.testBit_zero]
        rcases Nat.mod_two_eq_zero_or_one V with h | h <;> simp [h]
      rw [h0]
      omega

lemma pinPuts_append (pin : Nat) (l1 l2 : List GPIOEvent) :
    pinPuts pin (l1 ++ l2) = pinPuts pin l1 ++ pinPuts pin l2 := by
  simp [pinPuts, List.filterMap_append]

lemma pinPuts_pulseClock (r : ShiftRegister) (pin : Nat) (h : r.ClockPin ≠ pin) :
    pinPuts pin (ShiftRegisterPulseClock r) = [] := by
  simp [pinPuts, ShiftRegisterPulseClock, h]

lemma pinPuts_pulseLatch (r : ShiftRegister) (pin : Nat) (h : r.LatchPin ≠ pin) :
    pinPuts pin (ShiftRegisterPulseLatch r) = [] := by
  simp [pinPuts, ShiftRegisterPulseLatch, h]

lemma pinPuts_flatten_form (r : ShiftRegister) (h : r.ClockPin ≠ r.DataOutPin)
    (f : Nat → Bool) :
    ∀ l : List Nat,
      pinPuts r.DataOutPin
        ((l.map (fun k => GPIOEvent.put r.DataOutPin (f k) ::
            ShiftRegisterPulseClock r)).flatten) = l.map f := by
  intro l
  induction l with
  | nil => rfl
  | cons a as ih =>
      rw [List.map_cons, List.flatten_cons, pinPuts_append]
      rw [show GPIOEvent.put r.DataOutPin (f a) :: ShiftRegisterPulseClock r =
            [GPIOEvent.put r.DataOutPin (f a)] ++ ShiftRegisterPulseClock r from rfl,
          pinPuts_append, pinPuts_pulseClock r _ h, ih]
      simp [pinPuts]

lemma update_fst_frame (r : ShiftRegister) (ins : Nat → Bool) :
    (ShiftRegisterUpdate r ins).1 =
      { r with InputBuffer := ((ShiftRegisterUpdate r ins).1).InputBuffer } := by
  unfold ShiftRegisterUpdate ShiftRegisterRead ShiftRegisterWrite ShiftRegisterReadWrite
  split_ifs <;> rfl

lemma update_Typ (r : ShiftRegister) (ins : Nat → Bool) :
    ((ShiftRegisterUpdate r ins).1).Typ = r.Typ := by
  rw [update_fst_frame]

lemma update_SizeInOctets (r : ShiftRegister) (ins : Nat → Bool) :
    ((ShiftRegisterUpdate r ins).1).SizeInOctets = r.SizeInOctets := by
  rw [update_fst_frame]

/-! ### Claims -/

/-- Claim C1 (amended): for every register with width W octets (1 ≤ W ≤ 4) and
every FillValue, ShiftRegisterFill drives the same constant level onto the
data-out line for all W*8 clock-pulsed positions and then issues one latch
pulse; the driven level is low for Fill(0) and high for Fill(nonzero)
regardless of invertOutput, which ShiftRegisterFill does not consult. -/
theorem C1_fill_constant_level (r : ShiftRegister) (FillValue : Nat)
    (hW1 : 1 ≤ r.SizeInOctets) (hW4 : r.SizeInOctets ≤ 4) :
    ShiftRegisterFill r FillValue =
      (r, (List.replicate (r.SizeInOctets * 8)
            (GPIOEvent.put r.DataOutPin (decide (FillValue ≠ 0)) ::
              ShiftRegisterPulseClock r)).flatten
          ++ ShiftRegisterPulseLatch r) := by
  unfold ShiftRegisterFill
  rw [fillLoop_replicate]

/-- Claim C1, witness: the amended statement evaluated at a concrete
one-octet register with FillValue 3. -/
theorem C1_fill_constant_level_witness :
    ShiftRegisterFill
      { Typ := 1, ClockPin := 2, DataInPin := 3, DataOutPin := 4, LatchPin := 5,
        SizeInOctets := 1, ClockDelayUS := 5, LatchDelayUS := 5,
        InputBuffer := 0, OutputBuffer := 0, InvertOutput := true } 3 =
      ({ Typ := 1, ClockPin := 2, DataInPin := 3, DataOutPin := 4, LatchPin := 5,
         SizeInOctets := 1, ClockDelayUS := 5, LatchDelayUS := 5,
         InputBuffer := 0, OutputBuffer := 0, InvertOutput := true },
       (List.replicate (1 * 8)
          (GPIOEvent.put 4 (decide ((3 : Nat) ≠ 0)) ::
            ShiftRegisterPulseClock
              { Typ := 1, ClockPin := 2, DataInPin := 3, DataOutPin := 4, LatchPin := 5,
                SizeInOctets := 1, ClockDelayUS := 5, LatchDelayUS := 5,
                InputBuffer := 0, OutputBuffer := 0, InvertOutput := true })).flatten
        ++ ShiftRegisterPulseLatch
          { Typ := 1, ClockPin := 2, DataInPin := 3, DataOutPin := 4, LatchPin := 5,
            SizeInOctets := 1, ClockDelayUS := 5, LatchDelayUS := 5,
            InputBuffer := 0, OutputBuffer := 0, InvertOutput := true }) :=
  C1_fill_constant_level _ 3 (by decide) (by decide)

/-- Claim C1, counterexample to the claim as stated: with invertOutput true
the claim predicts Fill(0) drives all bits high, but the code drives them all
low - ShiftRegisterFill never applies invertOutput. -/
theorem C1_invert_counterexample :
    pinPuts 4 (ShiftRegisterFill
      { Typ := 1, ClockPin := 2, DataInPin := 3, DataOutPin := 4, LatchPin := 5,
        SizeInOctets := 1, ClockDelayUS := 5, LatchDelayUS := 5,
        InputBuffer := 0, OutputBuffer := 0, InvertOutput := true } 0).2 =
        List.replicate 8 false ∧
    pinPuts 4 (ShiftRegisterFill
      { Typ := 1, ClockPin := 2, DataInPin := 3, DataOutPin := 4, LatchPin := 5,
        SizeInOctets := 1, ClockDelayUS := 5, LatchDelayUS := 5,
        InputBuffer := 0, OutputBuffer := 0, InvertOutput := true } 0).2 ≠
        List.replicate 8 true := by
  decide

/-- Claim C2: for every register with width W octets (1 ≤ W ≤ 4) holding V in
outputBuffer, ShiftRegisterWrite drives the W*8 bits of V most-significant
first, each driven level being the bit value xor invertOutput, with one clock
pulse after each bit and one latch pulse at the end; the register (in
particular outputBuffer) is unchanged. -/
theorem C2_write_msb_first (r : ShiftRegister) (W V : Nat)
    (hW : r.SizeInOctets = W) (hW1 : 1 ≤ W) (hW4 : W ≤ 4)
    (hV : r.OutputBuffer = V) :
    ShiftRegisterWrite r =
      (r, ((List.range (W * 8)).map (fun k =>
            GPIOEvent.put r.DataOutPin
              (Bool.xor (Nat.testBit V (W * 8 - 1 - k)) r.InvertOutput) ::
              ShiftRegisterPulseClock r)).flatten
          ++ ShiftRegisterPulseLatch r) := by
  unfold ShiftRegisterWrite
  rw [hW, initialMask_eq W hW4, writeLoop_join]
  have hmap : (List.range (W * 8)).map (fun k =>
        GPIOEvent.put r.DataOutPin (drivenLevel r ((2 ^ (W * 8 - 1)) >>> k)) ::
          ShiftRegisterPulseClock r) =
      (List.range (W * 8)).map (fun k =>
        GPIOEvent.put r.DataOutPin
          (Bool.xor (Nat.testBit V (W * 8 - 1 - k)) r.InvertOutput) ::
          ShiftRegisterPulseClock r) := by
    apply mapRange_congr
    intro k hk
    rw [two_pow_shiftRight _ _ (by omega), drivenLevel_two_pow, hV]
  rw [hmap]

/-- Claim C2, witness: the statement evaluated at a concrete one-octet
register holding 181 with invertOutput true. -/
theorem C2_write_msb_first_witness :
    ShiftRegisterWrite
      { Typ := 1, ClockPin := 2, DataInPin := 3, DataOutPin := 4, LatchPin := 5,
        SizeInOctets := 1, ClockDelayUS := 5, LatchDelayUS := 5,
        InputBuffer := 0, OutputBuffer := 181, InvertOutput := true } =
      ({ Typ := 1, ClockPin := 2, DataInPin := 3, DataOutPin := 4, LatchPin := 5,
         SizeInOctets := 1, ClockDelayUS := 5, LatchDelayUS := 5,
         InputBuffer := 0, OutputBuffer := 181, InvertOutput := true },
       ((List.range (1 * 8)).map (fun k =>
          GPIOEvent.put 4 (Bool.xor (Nat.testBit 181 (1 * 8 - 1 - k)) true) ::
            ShiftRegisterPulseClock
              { Typ := 1, ClockPin := 2, DataInPin := 3, DataOutPin := 4, LatchPin := 5,
                SizeInOctets := 1, ClockDelayUS := 5, LatchDelayUS := 5,
                InputBuffer := 0, OutputBuffer := 181, InvertOutput := true })).flatten
        ++ ShiftRegisterPulseLatch
          { Typ := 1, ClockPin := 2, DataInPin := 3, DataOutPin := 4, LatchPin := 5,
            SizeInOctets := 1, ClockDelayUS := 5, LatchDelayUS := 5,
            InputBuffer := 0, OutputBuffer := 181, InvertOutput := true }) :=
  C2_write_msb_first _ 1 181 rfl (by decide) (by decide) rfl

/-- Claim C3: for every register with width W octets (1 ≤ W ≤ 4) and sampled
data-in levels ins 0, ins 1, ..., ShiftRegisterRead raises the latch, samples
W*8 levels (each sample before its clock pulse), lowers the latch, and leaves
inputBuffer = sum of ins i * 2^(W*8-1-i): the first sample lands at bit
W*8-1, the last at bit 0.  Only inputBuffer changes. -/
theorem C3_read_msb_first (r : ShiftRegister) (W : Nat) (ins : Nat → Bool)
    (hW : r.SizeInOctets = W) (hW1 : 1 ≤ W) (hW4 : W ≤ 4) :
    ShiftRegisterRead r ins =
      ({ r with InputBuffer :=
          ∑ i in Finset.range (W * 8), (ins i).toNat * 2 ^ (W * 8 - 1 - i) },
       GPIOEvent.put r.LatchPin true ::
         (((List.range (W * 8)).map (fun i =>
             GPIOEvent.get r.DataInPin (ins i) :: ShiftRegisterPulseClock r)).flatten
          ++ [GPIOEvent.put r.LatchPin false])) := by
  simp only [ShiftRegisterRead]
  rw [hW]
  rw [readLoop_val r ins (W * 8) 0 0 (by omega) (Nat.pos_pow_of_pos _ (by omega))]
  rw [readLoop_trace r ins (W * 8) 0 0]
  have hsum : (0 * 2 ^ (W * 8) +
      ∑ k in Finset.range (W * 8), (ins (0 + k)).toNat * 2 ^ (W * 8 - 1 - k)) =
      ∑ i in Finset.range (W * 8), (ins i).toNat * 2 ^ (W * 8 - 1 - i) := by
    simp
  have htr : (List.range (W * 8)).map (fun k =>
        GPIOEvent.get r.DataInPin (ins (0 + k)) :: ShiftRegisterPulseClock r) =
      (List.range (W * 8)).map (fun i =>
        GPIOEvent.get r.DataInPin (ins i) :: ShiftRegisterPulseClock r) := by
    apply mapRange_congr
    intro k _
    rw [Nat.zero_add]
  rw [hsum, htr]

/-- Claim C3, witness: the statement evaluated at a concrete one-octet
register with the sample stream 1,0,1,1,0,0,1,0. -/
theorem C3_read_msb_first_witness :
    ShiftRegisterRead
      { Typ := 0, ClockPin := 2, DataInPin := 3, DataOutPin := 4, LatchPin := 5,
        SizeInOctets := 1, ClockDelayUS := 5, LatchDelayUS := 5,
        InputBuffer := 0, OutputBuffer := 0, InvertOutput := false }
      (fun i => [true, false, true, true, false, false, true, false].getD i false) =
      ({ Typ := 0, ClockPin := 2, DataInPin := 3, DataOutPin := 4, LatchPin := 5,
         SizeInOctets := 1, ClockDelayUS := 5, LatchDelayUS := 5,
         InputBuffer := ∑ i in Finset.range (1 * 8),
           ((fun i => [true, false, true, true, false, false, true, false].getD i false) i).toNat *
             2 ^ (1 * 8 - 1 - i),
         OutputBuffer := 0, InvertOutput := false },
       GPIOEvent.put 5 true ::
         (((List.range (1 * 8)).map (fun i =>
             GPIOEvent.get 3
               ((fun i => [true, false, true, true, false, false, true, false].getD i false) i) ::
               ShiftRegisterPulseClock
                 { Typ := 0, ClockPin := 2, DataInPin := 3, DataOutPin := 4, LatchPin := 5,
                   SizeInOctets := 1, ClockDelayUS := 5, LatchDelayUS := 5,
                   InputBuffer := 0, OutputBuffer := 0,
                   InvertOutput := false })).flatten
          ++ [GPIOEvent.put 5 false])) :=
  C3_read_msb_first _ 1 _ rfl (by decide) (by decide)

/-- Claim C4: ShiftRegisterReadWrite performs, in order: (a) W*8
drive-then-clock steps shifting out outputBuffer MSB-first with invertOutput
applied and no latch activity; (b) one raising of the latch; (c) W*8
sample-then-clock steps accumulating into inputBuffer MSB-first (inputBuffer
restarted from zero); (d) one lowering of the latch.  The trace equality shows
no other clock or latch transition occurs. -/
theorem C4_hybrid_cycle (r : ShiftRegister) (W : Nat) (ins : Nat → Bool)
    (hW : r.SizeInOctets = W) (hW1 : 1 ≤ W) (hW4 : W ≤ 4) :
    ShiftRegisterReadWrite r ins =
      ({ r with InputBuffer :=
          ∑ i in Finset.range (W * 8), (ins i).toNat * 2 ^ (W * 8 - 1 - i) },
       ((List.range (W * 8)).map (fun k =>
           GPIOEvent.put r.DataOutPin
             (Bool.xor (r.OutputBuffer.testBit (W * 8 - 1 - k)) r.InvertOutput) ::
             ShiftRegisterPulseClock r)).flatten
        ++ (GPIOEvent.put r.LatchPin true ::
          (((List.range (W * 8)).map (fun i =>
              GPIOEvent.get r.DataInPin (ins i) :: ShiftRegisterPulseClock r)).flatten
            ++ [GPIOEvent.put r.LatchPin false]))) := by
  simp only [ShiftRegisterReadWrite]
  rw [hW, initialMask_eq W hW4, writeLoop_join]
  rw [readLoop_val r ins (W * 8) 0 0 (by omega) (Nat.pos_pow_of_pos _ (by omega))]
  rw [readLoop_trace r ins (W * 8) 0 0]
  have hmap : (List.range (W * 8)).map (fun k =>
        GPIOEvent.put r.DataOutPin (drivenLevel r ((2 ^ (W * 8 - 1)) >>> k)) ::
          ShiftRegisterPulseClock r) =
      (List.range (W * 8)).map (fun k =>
        GPIOEvent.put r.DataOutPin
          (Bool.xor (r.OutputBuffer.testBit (W * 8 - 1 - k)) r.InvertOutput) ::
          ShiftRegisterPulseClock r) := by
    apply mapRange_congr
    intro k hk
    rw [two_pow_shiftRight _ _ (by omega), drivenLevel_two_pow]
  have hsum : (0 * 2 ^ (W * 8) +
      ∑ k in Finset.range (W * 8), (ins (0 + k)).toNat * 2 ^ (W * 8 - 1 - k)) =
      ∑ i in Finset.range (W * 8), (ins i).toNat * 2 ^ (W * 8 - 1 - i) := by
    simp
  have htr : (List.range (W * 8)).map (fun k =>
        GPIOEvent.get r.DataInPin (ins (0 + k)) :: ShiftRegisterPulseClock r) =
      (List.range (W * 8)).map (fun i =>
        GPIOEvent.get r.DataInPin (ins i) :: ShiftRegisterPulseClock r) := by
    apply mapRange_congr
    intro k _
    rw [Nat.zero_add]
  rw [hmap, hsum, htr]

/-- Claim C4, witness: the statement evaluated at a concrete one-octet hybrid
register holding 181 with a constant-high sample stream. -/
theorem C4_hybrid_cycle_witness :
    ShiftRegisterReadWrite
      { Typ := 2, ClockPin := 2, DataInPin := 3, DataOutPin := 4, LatchPin := 5,
        SizeInOctets := 1, ClockDelayUS := 5, LatchDelayUS := 5,
        InputBuffer := 0, OutputBuffer := 181, InvertOutput := false }
      (fun _ => true) =
      ({ Typ := 2, ClockPin := 2, DataInPin := 3, DataOutPin := 4, LatchPin := 5,
         SizeInOctets := 1, ClockDelayUS := 5, LatchDelayUS := 5,
         InputBuffer := ∑ i in Finset.range (1 * 8),
           (true : Bool).toNat * 2 ^ (1 * 8 - 1 - i),
         OutputBuffer := 181, InvertOutput := false },
       ((List.range (1 * 8)).map (fun k =>
           GPIOEvent.put 4 (Bool.xor (Nat.testBit 181 (1 * 8 - 1 - k)) false) ::
             ShiftRegisterPulseClock
               { Typ := 2, ClockPin := 2, DataInPin := 3, DataOutPin := 4, LatchPin := 5,
                 SizeInOctets := 1, ClockDelayUS := 5, LatchDelayUS := 5,
                 InputBuffer := 0, OutputBuffer := 181, InvertOutput := false })).flatten
        ++ (GPIOEvent.put 5 true ::
          (((List.range (1 * 8)).map (fun i =>
              GPIOEvent.get 3 true ::
                ShiftRegisterPulseClock
                  { Typ := 2, ClockPin := 2, DataInPin := 3, DataOutPin := 4, LatchPin := 5,
                    SizeInOctets := 1, ClockDelayUS := 5, LatchDelayUS := 5,
                    InputBuffer := 0, OutputBuffer := 181,
                    InvertOutput := false })).flatten
            ++ [GPIOEvent.put 5 false]))) :=
  C4_hybrid_cycle _ 1 (fun _ => true) rfl (by decide) (by decide)

/-- Claim C5: with invertOutput false and data-out wired back to data-in, the
sequence of levels driven by ShiftRegisterWrite for outputBuffer = V, fed in
the same order as the samples of a subsequent ShiftRegisterRead, leaves
inputBuffer = V for every W*8-bit value V (1 ≤ W ≤ 4). -/
theorem C5_write_read_loopback (r : ShiftRegister) (W V : Nat)
    (hW : r.SizeInOctets = W) (hW1 : 1 ≤ W) (hW4 : W ≤ 4)
    (hV : r.OutputBuffer = V) (hVlt : V < 2 ^ (W * 8))
    (hInv : r.InvertOutput = false)
    (hpc : r.ClockPin ≠ r.DataOutPin) (hpl : r.LatchPin ≠ r.DataOutPin) :
    ((ShiftRegisterRead r (fun i =>
        (pinPuts r.DataOutPin (ShiftRegisterWrite r).2).getD i false)).1).InputBuffer
      = V := by
  have hlev : pinPuts r.DataOutPin (ShiftRegisterWrite r).2 =
      (List.range (W * 8)).map (fun k => Nat.testBit V (W * 8 - 1 - k)) := by
    show pinPuts r.DataOutPin
        (ShiftRegisterWriteLoop r ((1 <<< (r.SizeInOctets * 8 - 1)) % 2 ^ 32)
          (r.SizeInOctets * 8) ++ ShiftRegisterPulseLatch r) = _
    rw [pinPuts_append, pinPuts_pulseLatch r _ hpl, List.append_nil]
    rw [hW, initialMask_eq W hW4, writeLoop_join, pinPuts_flatten_form r hpc]
    apply mapRange_congr
    intro k hk
    rw [two_pow_shiftRight _ _ (by omega), drivenLevel_two_pow, hV, hInv]
    simp
  have h1 : ((ShiftRegisterRead r (fun i =>
      (pinPuts r.DataOutPin (ShiftRegisterWrite r).2).getD i false)).1).InputBuffer =
      (ShiftRegisterReadLoop r (fun i =>
        (pinPuts r.DataOutPin (ShiftRegisterWrite r).2).getD i false)
        0 0 (r.SizeInOctets * 8)).1 := rfl
  rw [h1, hW, readLoop_val r _ (W * 8) 0 0 (by omega) (Nat.pos_pow_of_pos _ (by omega))]
  have h2 : ∀ k ∈ Finset.range (W * 8),
      ((fun i => (pinPuts r.DataOutPin (ShiftRegisterWrite r).2).getD i false)
        (0 + k)).toNat * 2 ^ (W * 8 - 1 - k) =
      (Nat.testBit V (W * 8 - 1 - k)).toNat * 2 ^ (W * 8 - 1 - k) := by
    intro k hk
    have hk8 : k < W * 8 := Finset.mem_range.mp hk
    have hfeed : (pinPuts r.DataOutPin (ShiftRegisterWrite r).2).getD (0 + k) false =
        Nat.testBit V (W * 8 - 1 - k) := by
      rw [Nat.zero_add, hlev, getD_mapRange]
      exact hk8
    show ((pinPuts r.DataOutPin (ShiftRegisterWrite r).2).getD (0 + k) false).toNat *
        2 ^ (W * 8 - 1 - k) = _
    rw [hfeed]
  rw [Finset.sum_congr rfl h2]
  have h3 : ∑ k in Finset.range (W * 8),
      (Nat.testBit V (W * 8 - 1 - k)).toNat * 2 ^ (W * 8 - 1 - k) =
      ∑ j in Finset.range (W * 8), (Nat.testBit V j).toNat * 2 ^ j :=
    Finset.sum_range_reflect (fun j => (Nat.testBit V j).toNat * 2 ^ j) (W * 8)
  rw [h3, sum_testBit_eq (W * 8) V hVlt]
  omega

/-- Claim C5, witness: loopback of the value 181 through a concrete one-octet
register recovers 181 in inputBuffer. -/
theorem C5_write_read_loopback_witness :
    ((ShiftRegisterRead
      { Typ := 2, ClockPin := 2, DataInPin := 3, DataOutPin := 4, LatchPin := 5,
        SizeInOctets := 1, ClockDelayUS := 5, LatchDelayUS := 5,
        InputBuffer := 0, OutputBuffer := 181, InvertOutput := false }
      (fun i => (pinPuts 4 (ShiftRegisterWrite
        { Typ := 2, ClockPin := 2, DataInPin := 3, DataOutPin := 4, LatchPin := 5,
          SizeInOctets := 1, ClockDelayUS := 5, LatchDelayUS := 5,
          InputBuffer := 0, OutputBuffer := 181,
          InvertOutput := false }).2).getD i false)).1).InputBuffer = 181 :=
  C5_write_read_loopback _ 1 181 rfl (by decide) (by decide) rfl (by decide)
    rfl (by decide) (by decide)

/-- Claim C6: ShiftRegisterCreate returns no instance exactly when the
requested width exceeds MAX_SIZEINOCTETS = 4; every other argument
combination yields a constructed instance (the width check is the driver's
only checked failure - all other operations are total). -/
theorem C6_width_only_failure (TypA ClockPinA DataInPinA DataOutPinA LatchPinA
    InitialValue SizeInOctetsA : Nat) (ins : Nat → Bool) :
    (ShiftRegisterCreate TypA ClockPinA DataInPinA DataOutPinA LatchPinA
        InitialValue SizeInOctetsA ins = none) ↔ 4 < SizeInOctetsA := by
  unfold ShiftRegisterCreate MAX_SIZEINOCTETS
  split_ifs with h
  · simpa using h
  · simp
    omega

/-- Claim C7 (amended): for every construction request with width W ≤ 4,
ShiftRegisterCreate configures the direction of each non-zero pin (data-in as
input; data-out, clock and latch as outputs), drives the data-out pin (when
non-zero) and the latch pin low - the clock pin is configured as an output but
receives no explicit drive - populates the fields with the provided mode,
pins, width and initial output value plus the default timing constants
(inputBuffer 0, outputBuffer the initial value, invertOutput false), and then
performs exactly one ShiftRegisterUpdate transfer cycle before returning. -/
theorem C7_create_initializes (TypA ClockPinA DataInPinA DataOutPinA LatchPinA
    InitialValue W : Nat) (ins : Nat → Bool) (hW : W ≤ 4) :
    ShiftRegisterCreate TypA ClockPinA DataInPinA DataOutPinA LatchPinA
        InitialValue W ins =
      some ((ShiftRegisterUpdate
          { Typ := TypA, ClockPin := ClockPinA, DataInPin := DataInPinA,
            DataOutPin := DataOutPinA, LatchPin := LatchPinA, SizeInOctets := W,
            ClockDelayUS := SHIFTREGISTER_CLOCKDELAY_US,
            LatchDelayUS := SHIFTREGISTER_LATCHDELAY_US,
            InputBuffer := 0, OutputBuffer := InitialValue,
            InvertOutput := false } ins).1,
        ([GPIOEvent.pinInit ClockPinA, GPIOEvent.setDir ClockPinA true]
          ++ (if DataInPinA ≠ 0 then
                [GPIOEvent.pinInit DataInPinA, GPIOEvent.setDir DataInPinA false]
              else [])
          ++ (if DataOutPinA ≠ 0 then
                [GPIOEvent.pinInit DataOutPinA, GPIOEvent.setDir DataOutPinA true,
                 GPIOEvent.put DataOutPinA false]
              else [])
          ++ [GPIOEvent.pinInit LatchPinA, GPIOEvent.setDir LatchPinA true,
              GPIOEvent.put LatchPinA false])
        ++ (ShiftRegisterUpdate
          { Typ := TypA, ClockPin := ClockPinA, DataInPin := DataInPinA,
            DataOutPin := DataOutPinA, LatchPin := LatchPinA, SizeInOctets := W,
            ClockDelayUS := SHIFTREGISTER_CLOCKDELAY_US,
            LatchDelayUS := SHIFTREGISTER_LATCHDELAY_US,
            InputBuffer := 0, OutputBuffer := InitialValue,
            InvertOutput := false } ins).2) ∧
    (ShiftRegisterUpdate
        { Typ := TypA, ClockPin := ClockPinA, DataInPin := DataInPinA,
          DataOutPin := DataOutPinA, LatchPin := LatchPinA, SizeInOctets := W,
          ClockDelayUS := SHIFTREGISTER_CLOCKDELAY_US,
          LatchDelayUS := SHIFTREGISTER_LATCHDELAY_US,
          InputBuffer := 0, OutputBuffer := InitialValue,
          InvertOutput := false } ins).1 =
      { Typ := TypA, ClockPin := ClockPinA, DataInPin := DataInPinA,
        DataOutPin := DataOutPinA, LatchPin := LatchPinA, SizeInOctets := W,
        ClockDelayUS := SHIFTREGISTER_CLOCKDELAY_US,
        LatchDelayUS := SHIFTREGISTER_LATCHDELAY_US,
        InputBuffer := ((ShiftRegisterUpdate
          { Typ := TypA, ClockPin := ClockPinA, DataInPin := DataInPinA,
            DataOutPin := DataOutPinA, LatchPin := LatchPinA, SizeInOctets := W,
            ClockDelayUS := SHIFTREGISTER_CLOCKDELAY_US,
            LatchDelayUS := SHIFTREGISTER_LATCHDELAY_US,
            InputBuffer := 0, OutputBuffer := InitialValue,
            InvertOutput := false } ins).1).InputBuffer,
        OutputBuffer := InitialValue, InvertOutput := false } := by
  constructor
  · simp only [ShiftRegisterCreate, ShiftRegisterCreateConfigTrace, MAX_SIZEINOCTETS]
    rw [if_neg (by omega)]
  · exact update_fst_frame _ ins

/-- Claim C7, witness: the amended statement evaluated at a concrete
write-mode construction request of width 1. -/
theorem C7_create_initializes_witness :
    ShiftRegisterCreate 1 2 3 4 5 9 1 (fun _ => false) =
      some ((ShiftRegisterUpdate
          { Typ := 1, ClockPin := 2, DataInPin := 3,
            DataOutPin := 4, LatchPin := 5, SizeInOctets := 1,
            ClockDelayUS := SHIFTREGISTER_CLOCKDELAY_US,
            LatchDelayUS := SHIFTREGISTER_LATCHDELAY_US,
            InputBuffer := 0, OutputBuffer := 9,
            InvertOutput := false } (fun _ => false)).1,
        ([GPIOEvent.pinInit 2, GPIOEvent.setDir 2 true]
          ++ (if (3 : Nat) ≠ 0 then
                [GPIOEvent.pinInit 3, GPIOEvent.setDir 3 false]
              else [])
          ++ (if (4 : Nat) ≠ 0 then
                [GPIOEvent.pinInit 4, GPIOEvent.setDir 4 true,
                 GPIOEvent.put 4 false]
              else [])
          ++ [GPIOEvent.pinInit 5, GPIOEvent.setDir 5 true,
              GPIOEvent.put 5 false])
        ++ (ShiftRegisterUpdate
          { Typ := 1, ClockPin := 2, DataInPin := 3,
            DataOutPin := 4, LatchPin := 5, SizeInOctets := 1,
            ClockDelayUS := SHIFTREGISTER_CLOCKDELAY_US,
            LatchDelayUS := SHIFTREGISTER_LATCHDELAY_US,
            InputBuffer := 0, OutputBuffer := 9,
            InvertOutput := false } (fun _ => false)).2) ∧
    (ShiftRegisterUpdate
        { Typ := 1, ClockPin := 2, DataInPin := 3,
          DataOutPin := 4, LatchPin := 5, SizeInOctets := 1,
          ClockDelayUS := SHIFTREGISTER_CLOCKDELAY_US,
          LatchDelayUS := SHIFTREGISTER_LATCHDELAY_US,
          InputBuffer := 0, OutputBuffer := 9,
          InvertOutput := false } (fun _ => false)).1 =
      { Typ := 1, ClockPin := 2, DataInPin := 3,
        DataOutPin := 4, LatchPin := 5, SizeInOctets := 1,
        ClockDelayUS := SHIFTREGISTER_CLOCKDELAY_US,
        LatchDelayUS := SHIFTREGISTER_LATCHDELAY_US,
        InputBuffer := ((ShiftRegisterUpdate
          { Typ := 1, ClockPin := 2, DataInPin := 3,
            DataOutPin := 4, LatchPin := 5, SizeInOctets := 1,
            ClockDelayUS := SHIFTREGISTER_CLOCKDELAY_US,
            LatchDelayUS := SHIFTREGISTER_LATCHDELAY_US,
            InputBuffer := 0, OutputBuffer := 9,
            InvertOutput := false } (fun _ => false)).1).InputBuffer,
        OutputBuffer := 9, InvertOutput := false } :=
  C7_create_initializes 1 2 3 4 5 9 1 (fun _ => false) (by decide)

/-- Claim C7, counterexample to the claim as stated: the claim requires every
output-direction pin, the clock pin included, to be driven low before the
construction-time transfer cycle; but the configuration phase contains no
gpio_put on the clock pin at all, so the first level ever driven on the clock
pin (pin 2 here) is the high half of the first clock pulse of the transfer. -/
theorem C7_clock_pin_counterexample :
    Option.map (fun p => (pinPuts 2 p.2).head?)
        (ShiftRegisterCreate 1 2 3 4 5 0 1 (fun _ => false)) = some (some true) ∧
    GPIOEvent.put 2 false ∉ ShiftRegisterCreateConfigTrace 2 3 4 5 := by
  decide

/-- Claim C8: GC8BitInit constructs one Register in input (read-only) mode
with width 1 octet and sets both delays to 1 microsecond before returning it;
GC8BitPoll on that register performs exactly one read transfer and returns
the low 8 bits of the updated inputBuffer. -/
theorem C8_gamecontroller_config (ClockPinA DataInPinA LatchPinA : Nat)
    (ins ins2 : Nat → Bool) (c : ShiftRegister) (tr : List GPIOEvent)
    (h : GC8BitInit ClockPinA DataInPinA LatchPinA ins = some (c, tr)) :
    c.Typ = SHIFTREGISTER_INPUT ∧ c.SizeInOctets = 1 ∧
    c.ClockDelayUS = 1 ∧ c.LatchDelayUS = 1 ∧
    GC8BitPoll c ins2 =
      (((ShiftRegisterRead c ins2).1).InputBuffer % 256,
       (ShiftRegisterRead c ins2).1, (ShiftRegisterRead c ins2).2) := by
  have hc : ShiftRegisterCreate SHIFTREGISTER_INPUT ClockPinA DataInPinA 0
      LatchPinA 0 1 ins =
      some ((ShiftRegisterUpdate
          { Typ := SHIFTREGISTER_INPUT, ClockPin := ClockPinA,
            DataInPin := DataInPinA, DataOutPin := 0, LatchPin := LatchPinA,
            SizeInOctets := 1, ClockDelayUS := SHIFTREGISTER_CLOCKDELAY_US,
            LatchDelayUS := SHIFTREGISTER_LATCHDELAY_US,
            InputBuffer := 0, OutputBuffer := 0, InvertOutput := false } ins).1,
        ShiftRegisterCreateConfigTrace ClockPinA DataInPinA 0 LatchPinA
          ++ (ShiftRegisterUpdate
          { Typ := SHIFTREGISTER_INPUT, ClockPin := ClockPinA,
            DataInPin := DataInPinA, DataOutPin := 0, LatchPin := LatchPinA,
            SizeInOctets := 1, ClockDelayUS := SHIFTREGISTER_CLOCKDELAY_US,
            LatchDelayUS := SHIFTREGISTER_LATCHDELAY_US,
            InputBuffer := 0, OutputBuffer := 0, InvertOutput := false } ins).2) := by
    simp only [ShiftRegisterCreate, MAX_SIZEINOCTETS]
    rw [if_neg (by omega)]
  unfold GC8BitInit at h
  rw [hc] at h
  simp only [Option.some.injEq, Prod.mk.injEq] at h
  obtain ⟨hcq, _⟩ := h
  have hTyp : c.Typ = SHIFTREGISTER_INPUT := by
    rw [← hcq]
    show ((ShiftRegisterUpdate _ ins).1).Typ = SHIFTREGISTER_INPUT
    rw [update_Typ]
  have hSize : c.SizeInOctets = 1 := by
    rw [← hcq]
    show ((ShiftRegisterUpdate _ ins).1).SizeInOctets = 1
    rw [update_SizeInOctets]
  have hdel : c.ClockDelayUS = 1 ∧ c.LatchDelayUS = 1 := by
    rw [← hcq]
    exact ⟨rfl, rfl⟩
  have hPoll : ShiftRegisterUpdate c ins2 = ShiftRegisterRead c ins2 := by
    unfold ShiftRegisterUpdate
    rw [if_pos hTyp]
  refine ⟨hTyp, hSize, hdel.1, hdel.2, ?_⟩
  simp only [GC8BitPoll, hPoll]

/-- Claim C8, witness: the statement evaluated at concrete pins with an
all-low initialisation stream and an all-high polling stream. -/
theorem C8_gamecontroller_config_witness :
    ({ Typ := 0, ClockPin := 2, DataInPin := 3, DataOutPin := 0, LatchPin := 5,
       SizeInOctets := 1, ClockDelayUS := 1, LatchDelayUS := 1,
       InputBuffer := 0, OutputBuffer := 0,
       InvertOutput := false } : ShiftRegister).Typ = SHIFTREGISTER_INPUT ∧
    ({ Typ := 0, ClockPin := 2, DataInPin := 3, DataOutPin := 0, LatchPin := 5,
       SizeInOctets := 1, ClockDelayUS := 1, LatchDelayUS := 1,
       InputBuffer := 0, OutputBuffer := 0,
       InvertOutput := false } : ShiftRegister).SizeInOctets = 1 ∧
    ({ Typ := 0, ClockPin := 2, DataInPin := 3, DataOutPin := 0, LatchPin := 5,
       SizeInOctets := 1, ClockDelayUS := 1, LatchDelayUS := 1,
       InputBuffer := 0, OutputBuffer := 0,
       InvertOutput := false } : ShiftRegister).ClockDelayUS = 1 ∧
    ({ Typ := 0, ClockPin := 2, DataInPin := 3, DataOutPin := 0, LatchPin := 5,
       SizeInOctets := 1, ClockDelayUS := 1, LatchDelayUS := 1,
       InputBuffer := 0, OutputBuffer := 0,
       InvertOutput := false } : ShiftRegister).LatchDelayUS = 1 ∧
    GC8BitPoll
      { Typ := 0, ClockPin := 2, DataInPin := 3, DataOutPin := 0, LatchPin := 5,
        SizeInOctets := 1, ClockDelayUS := 1, LatchDelayUS := 1,
        InputBuffer := 0, OutputBuffer := 0, InvertOutput := false }
      (fun _ => true) =
      (((ShiftRegisterRead
          { Typ := 0, ClockPin := 2, DataInPin := 3, DataOutPin := 0, LatchPin := 5,
            SizeInOctets := 1, ClockDelayUS := 1, LatchDelayUS := 1,
            InputBuffer := 0, OutputBuffer := 0, InvertOutput := false }
          (fun _ => true)).1).InputBuffer % 256,
       (ShiftRegisterRead
          { Typ := 0, ClockPin := 2, DataInPin := 3, DataOutPin := 0, LatchPin := 5,
            SizeInOctets := 1, ClockDelayUS := 1, LatchDelayUS := 1,
            InputBuffer := 0, OutputBuffer := 0, InvertOutput := false }
          (fun _ => true)).1,
       (ShiftRegisterRead
          { Typ := 0, ClockPin := 2, DataInPin := 3, DataOutPin := 0, LatchPin := 5,
            SizeInOctets := 1, ClockDelayUS := 1, LatchDelayUS := 1,
            InputBuffer := 0, OutputBuffer := 0, InvertOutput := false }
          (fun _ => true)).2) :=
  C8_gamecontroller_config 2 3 5 (fun _ => false) (fun _ => true)
    { Typ := 0, ClockPin := 2, DataInPin := 3, DataOutPin := 0, LatchPin := 5,
      SizeInOctets := 1, ClockDelayUS := 1, LatchDelayUS := 1,
      InputBuffer := 0, OutputBuffer := 0, InvertOutput := false }
    ((Option.getD (GC8BitInit 2 3 5 (fun _ => false))
      ({ Typ := 0, ClockPin := 2, DataInPin := 3, DataOutPin := 0, LatchPin := 5,
         SizeInOctets := 1, ClockDelayUS := 1, LatchDelayUS := 1,
         InputBuffer := 0, OutputBuffer := 0, InvertOutput := false }, [])).2)
    (by decide)

/-- Claim C9: ShiftRegisterWrite and ShiftRegisterFill leave every field of
the register unchanged; ShiftRegisterRead and ShiftRegisterReadWrite modify
only inputBuffer and leave every other field unchanged. -/
theorem C9_frame_conditions (r : ShiftRegister) (ins : Nat → Bool) (FillValue : Nat) :
    (ShiftRegisterWrite r).1 = r ∧
    (ShiftRegisterFill r FillValue).1 = r ∧
    (ShiftRegisterRead r ins).1 =
      { r with InputBuffer := ((ShiftRegisterRead r ins).1).InputBuffer } ∧
    (ShiftRegisterReadWrite r ins).1 =
      { r with InputBuffer := ((ShiftRegisterReadWrite r ins).1).InputBuffer } :=
  ⟨rfl, rfl, rfl, rfl⟩

/-- Claim C10: for a register whose Type is outside the three defined values,
ShiftRegisterUpdate is a silent no-op (no GPIO event, state unchanged), and
ShiftRegisterCreate with such a mode and a valid width still returns an
instance whose fields are fully populated, whose inputBuffer is 0, and whose
trace consists of the pin-configuration events only - the construction-time
transfer cycle produced no pin activity. -/
theorem C10_invalid_mode_noop (r : ShiftRegister) (ins : Nat → Bool)
    (TypA ClockPinA DataInPinA DataOutPinA LatchPinA InitialValue W : Nat)
    (ins2 : Nat → Bool) (hr : 3 ≤ r.Typ) (hm : 3 ≤ TypA) (hW : W ≤ 4) :
    ShiftRegisterUpdate r ins = (r, []) ∧
    ShiftRegisterCreate TypA ClockPinA DataInPinA DataOutPinA LatchPinA
        InitialValue W ins2 =
      some ({ Typ := TypA, ClockPin := ClockPinA, DataInPin := DataInPinA,
              DataOutPin := DataOutPinA, LatchPin := LatchPinA, SizeInOctets := W,
              ClockDelayUS := SHIFTREGISTER_CLOCKDELAY_US,
              LatchDelayUS := SHIFTREGISTER_LATCHDELAY_US,
              InputBuffer := 0, OutputBuffer := InitialValue,
              InvertOutput := false },
            ShiftRegisterCreateConfigTrace ClockPinA DataInPinA DataOutPinA LatchPinA) := by
  have hupd : ∀ (s : ShiftRegister) (f : Nat → Bool), 3 ≤ s.Typ →
      ShiftRegisterUpdate s f = (s, []) := by
    intro s f hs
    unfold ShiftRegisterUpdate
    rw [if_neg (by unfold SHIFTREGISTER_INPUT; omega),
        if_neg (by unfold SHIFTREGISTER_OUTPUT; omega),
        if_neg (by unfold SHIFTREGISTER_HYBRID; omega)]
  refine ⟨hupd r ins hr, ?_⟩
  simp only [ShiftRegisterCreate, MAX_SIZEINOCTETS]
  rw [if_neg (by omega)]
  rw [hupd _ ins2 hm]
  simp

/-- Claim C10, witness: a register with Type 7, and a construction request
with mode 3 and width 2, evaluated concretely. -/
theorem C10_invalid_mode_noop_witness :
    ShiftRegisterUpdate
      { Typ := 7, ClockPin := 2, DataInPin := 3, DataOutPin := 4, LatchPin := 5,
        SizeInOctets := 1, ClockDelayUS := 5, LatchDelayUS := 5,
        InputBuffer := 0, OutputBuffer := 0, InvertOutput := false }
      (fun _ => true) =
      ({ Typ := 7, ClockPin := 2, DataInPin := 3, DataOutPin := 4, LatchPin := 5,
         SizeInOctets := 1, ClockDelayUS := 5, LatchDelayUS := 5,
         InputBuffer := 0, OutputBuffer := 0, InvertOutput := false }, []) ∧
    ShiftRegisterCreate 3 2 3 4 5 6 2 (fun _ => false) =
      some ({ Typ := 3, ClockPin := 2, DataInPin := 3, DataOutPin := 4, LatchPin := 5,
              SizeInOctets := 2,
              ClockDelayUS := SHIFTREGISTER_CLOCKDELAY_US,
              LatchDelayUS := SHIFTREGISTER_LATCHDELAY_US,
              InputBuffer := 0, OutputBuffer := 6, InvertOutput := false },
            ShiftRegisterCreateConfigTrace 2 3 4 5) :=
  C10_invalid_mode_noop
    { Typ := 7, ClockPin := 2, DataInPin := 3, DataOutPin := 4, LatchPin := 5,
      SizeInOctets := 1, ClockDelayUS := 5, LatchDelayUS := 5,
      InputBuffer := 0, OutputBuffer := 0, InvertOutput := false }
    (fun _ => true) 3 2 3 4 5 6 2 (fun _ => false)
    (by decide) (by decide) (by decide)
